import Mathlib

/-!
Verification of the MovieHouse front-end (jpea781/Movie).

The repository contains several near-duplicate variants of the same React
application.  The two variants the claims refer to are:

* `src/src/App.js` (called the App variant below), and
* the first application inside `src/unnamed/part_000`, lines 1-1683
  (called the V1 variant below); it carries dedup merges, a load-more
  guard, a separate debounce closure for the full-search timer, payload
  validation and richer error messages.

Every definition below is a direct shallow embedding of the function named
in its doc comment.  Network calls and timers are made explicit: a fetch
becomes a pure state update applied to its outcome, and a timer becomes an
entry of an `armed` list keyed by the identifier `setTimeout` returned.
-/

namespace Movie

/-- MediaItem as consumed by the client: an identifier and a display
title (`src/src/App.js`, TMDB response items). -/
structure MediaItem where
  id : Nat
  title : String
deriving DecidableEq, Repr

/-- The identifiers of a list of items, in display order. -/
def ids (l : List MediaItem) : List Nat :=
  l.map MediaItem.id

/-- Concrete items used by scenario runs and witnesses. -/
def itemA : MediaItem := ⟨1, "A"⟩

def itemB : MediaItem := ⟨2, "B"⟩

def itemC : MediaItem := ⟨3, "C"⟩

/-- Page-merge of the App variant (`src/src/App.js` lines 355 and 433):
`setMovies(prev => [...prev, ...(data.results || [])])` - plain
concatenation, no dedup. -/
def mergeConcat (prev newItems : List MediaItem) : List MediaItem :=
  prev ++ newItems

/-- Page-merge of the V1 variant (`src/unnamed/part_000` lines 820-825):
`existingIds = new Set(prev.map(item => item.id));
newItems = validResults.filter(item => !existingIds.has(item.id));
return [...prev, ...newItems]`. -/
def mergeDedupe (prev newItems : List MediaItem) : List MediaItem :=
  prev ++ newItems.filter (fun item => !((prev.map MediaItem.id).contains item.id))

/-! ## JavaScript string primitives -/

/-- The whitespace characters `String.prototype.trim` removes, restricted
to the ASCII range the data model uses. -/
def isJsWhitespace (c : Char) : Bool :=
  c = ' ' || c = '\t' || c = '\n' || c = '\r'

/-- `value.trim()` - drop leading and trailing whitespace.  Defined over
the character list so that concrete runs reduce inside the kernel. -/
def jsTrim (s : String) : String :=
  String.mk (((s.data.dropWhile isJsWhitespace).reverse.dropWhile isJsWhitespace).reverse)

/-- `s.startsWith(pre)`. -/
def jsStartsWith (s pre : String) : Bool :=
  pre.data.isPrefixOf s.data

/-! ## Image URL builder (`getImageUrl`, App.js lines 18-26, identical in
`part_000` lines 21-29) -/

/-- A JavaScript value, as far as `getImageUrl` can observe one: the
function tests truthiness, `typeof path !== 'string'`, `path.trim()` and
equality with the literal string `'null'`. -/
inductive JSVal
  | undefined
  | jsnull
  | boolean (b : Bool)
  | number (n : Int)
  | string (s : String)
deriving DecidableEq, Repr

/-- JavaScript truthiness for the values of `JSVal`. -/
def JSVal.truthy : JSVal → Bool
  | .undefined => false
  | .jsnull => false
  | .boolean b => b
  | .number n => n != 0
  | .string s => s != ""

/-- `typeof path === 'string'`. -/
def JSVal.isString : JSVal → Bool
  | .string _ => true
  | _ => false

/-- `TMDB_IMAGE_BASE` (App.js line 6). -/
def TMDB_IMAGE_BASE : String := "https://image.tmdb.org/t/p/"

/-- The `imageSizes` lookup object (App.js lines 8-16); `none` models a
property access that yields `undefined`. -/
def imageSizes (size : String) : Option String :=
  if size = "thumbnail" then some "w92"
  else if size = "small" then some "w154"
  else if size = "card" then some "w342"
  else if size = "medium" then some "w500"
  else if size = "large" then some "w780"
  else if size = "xlarge" then some "w1280"
  else if size = "original" then some "original"
  else none

/-- `getImageUrl(path, size)` (App.js lines 18-26).  `none` is the
JavaScript `null` return. -/
def getImageUrl (path : JSVal) (size : String) : Option String :=
  if !path.truthy || !path.isString then none
  else
    match path with
    | .string s =>
      if jsTrim s = "" || s = "null" then none
      else
        let sizeString := (imageSizes size).getD "w342"
        let cleanPath := if jsStartsWith s "/" then s else "/" ++ s
        some (TMDB_IMAGE_BASE ++ sizeString ++ cleanPath)
    | _ => none

/-- A string that starts with one slash and not a second one. -/
def hasExactlyOneLeadingSlash (p : String) : Bool :=
  jsStartsWith p "/" && !(jsStartsWith (String.mk (p.data.drop 1)) "/")

/-! ## Pagination fetch success and failure
(`fetchTrending` / `fetchByCategory`) -/

/-- The payload of a successful page fetch:
`{results, page, total_pages, total_results}`. -/
structure FetchData where
  results : List MediaItem
  total_pages : Nat
  total_results : Nat
deriving DecidableEq, Repr

/-- The controller state touched by the pagination fetches. -/
structure AppState where
  movies : List MediaItem
  featured : Option MediaItem
  page : Nat
  hasMore : Bool
  loading : Bool
  error : Option String
deriving DecidableEq, Repr

/-- Success path of `fetchTrending` in the App variant (App.js lines
349-359, with `setError(null)` from line 343 and `setLoading(false)`
from the `finally` block): the first page replaces the list and the
featured item, later pages concatenate; then
`setHasMore(pageNum < data.total_pages)` and `setPage(pageNum)`. -/
def fetchTrendingSuccess (st : AppState) (pageNum : Nat) (data : FetchData) : AppState :=
  { st with
    movies := if pageNum = 1 then data.results else mergeConcat st.movies data.results
    featured := if pageNum = 1 then data.results.head? else st.featured
    hasMore := decide (pageNum < data.total_pages)
    page := pageNum
    loading := false
    error := none }

/-- Catch branch of `fetchTrending`/`fetchByCategory` in the App variant
(App.js lines 439-444): `setError('Failed to load content')` plus the
`finally` `setLoading(false)`; the movie list and featured item are not
touched. -/
def fetchFailureApp (st : AppState) : AppState :=
  { st with error := some "Failed to load content", loading := false }

/-- Error message thrown for a non-ok response in the V1 variant
(`part_000` lines 802-807 and 904-910). -/
def statusErrorMessageV1 (status : Nat) : String :=
  if status = 429 then "API rate limit exceeded. Please try again later."
  else "Failed to fetch data: " ++ toString status

/-- Catch branch of `fetchTrending`/`fetchByCategory` in the V1 variant
(`part_000` lines 831-843 and 938-946):
`setError(err.message || 'Failed to load content')`, and when
`pageNum === 1` also `setMovies([]); setFeatured(null)`;
`setLoading(false)` runs only when `shouldReset` was passed. -/
def fetchFailureV1 (st : AppState) (pageNum : Nat) (shouldReset : Bool)
    (msg : String) : AppState :=
  { st with
    error := some (if msg = "" then "Failed to load content" else msg)
    movies := if pageNum = 1 then [] else st.movies
    featured := if pageNum = 1 then none else st.featured
    loading := if shouldReset then false else st.loading }

/-! ## Load-more guard (`handleLoadMore`) -/

/-- The state the load-more handler reads, plus a count of page-fetch
requests currently in flight (a request is in flight from the moment
`fetch` is called until its response is processed). -/
structure PageSt where
  loading : Bool
  hasMore : Bool
  inFlight : Nat
deriving DecidableEq, Repr

/-- `handleLoadMore` of the V1 variant (`part_000` lines 951-959):
`if (loading || !hasMore) return;` then `fetchTrending(page + 1, false)` /
`fetchByCategory(category, page + 1, false)`.  With `shouldReset = false`
the fetch functions do not set `loading` (`part_000` lines 791-796), so
issuing the request leaves `loading` untouched. -/
def handleLoadMoreV1 (st : PageSt) : PageSt :=
  if st.loading || !st.hasMore then st
  else { st with inFlight := st.inFlight + 1 }

/-- `handleLoadMore` of the App variant (App.js lines 448-454): no guard;
the called fetch function runs `setLoading(true)` (App.js line 342) and
issues the request. -/
def handleLoadMoreApp (st : PageSt) : PageSt :=
  { st with loading := true, inFlight := st.inFlight + 1 }

/-! ## Visibility watches (IntersectionObserver uses) -/

/-- A visibility watch: whether the observer is still connected and how
often the visibility callback body ran. -/
structure Observer where
  connected : Bool
  fired : Nat
deriving DecidableEq, Repr

/-- A freshly armed watch. -/
def Observer.init : Observer := ⟨true, 0⟩

/-- Delivery of one intersection entry to the lazy-image observer
(`src/src/components/OptimizedImage.jsx` lines 26-37, same callback in
App.js lines 52-60): when the entry is intersecting the callback sets the
visible flag and calls `observer.disconnect()`.  A disconnected observer
receives no further entries. -/
def imageObserverStep (ob : Observer) (isIntersecting : Bool) : Observer :=
  if ob.connected then
    if isIntersecting then { connected := false, fired := ob.fired + 1 }
    else ob
  else ob

/-- Delivery of one intersection entry to the infinite-scroll observer
(App.js lines 462-466): when the entry is intersecting the callback calls
`handleLoadMore()` and does not disconnect; the observer is only
disconnected from outside, by the effect cleanup. -/
def scrollObserverStep (ob : Observer) (isIntersecting : Bool) : Observer :=
  if ob.connected then
    if isIntersecting then { ob with fired := ob.fired + 1 }
    else ob
  else ob

/-- Run a sequence of delivered entries through the lazy-image watch. -/
def imageObserverRun (ob : Observer) (events : List Bool) : Observer :=
  events.foldl imageObserverStep ob

/-- Run a sequence of delivered entries through the infinite-scroll
watch. -/
def scrollObserverRun (ob : Observer) (events : List Bool) : Observer :=
  events.foldl scrollObserverStep ob

/-! ## Gateway endpoint selection (`fetchByCategory`, App.js lines
369-422, same mapping in `part_000` lines 845-901 and 2539-2597) -/

/-- The three upstream endpoint shapes: discover filtered by genre id,
discover filtered by original language (with an optional region), and the
canonical list endpoint `/movie/{name}` or `/tv/{name}`. -/
inductive Endpoint
  | discoverGenre (tv : Bool) (genreId : Nat)
  | discoverLanguage (tv : Bool) (lang : String) (region : Option String)
  | canonicalList (tv : Bool) (listName : String)
deriving DecidableEq, Repr

/-- The value `tvCatMap[cat]` evaluates to: a genre id number, a list-name
string, or `undefined` for a key that is absent (App.js lines 376-392). -/
inductive TvCatVal
  | genre (n : Nat)
  | list (s : String)
  | absent
deriving DecidableEq, Repr

/-- The `tvCatMap` object lookup (App.js lines 376-390). -/
def tvCatLookup (cat : String) : TvCatVal :=
  if cat = "popular_tv" then .list "popular"
  else if cat = "top_rated_tv" then .list "top_rated"
  else if cat = "on_the_air" then .list "on_the_air"
  else if cat = "airing_today" then .list "airing_today"
  else if cat = "tv_action" then .genre 10759
  else if cat = "tv_comedy" then .genre 35
  else if cat = "tv_drama" then .genre 18
  else if cat = "tv_scifi" then .genre 10765
  else if cat = "tv_animation" then .genre 16
  else if cat = "tagalog_tv" then .list "tagalog_tv"
  else if cat = "tv_mystery" then .genre 9648
  else if cat = "tv_reality" then .genre 10764
  else if cat = "tv_documentary" then .genre 99
  else .absent

/-- The movie genre list tested by
`["action", ..., "animation"].includes(cat)` (App.js line 405). -/
def movieGenreCats : List String :=
  ["action", "comedy", "drama", "horror", "romance", "thriller", "scifi", "animation"]

/-- The `genreMap` object (App.js lines 406-415); the default 0 is never
reached because the lookup is guarded by `movieGenreCats`. -/
def movieGenreId (cat : String) : Nat :=
  if cat = "action" then 28
  else if cat = "comedy" then 35
  else if cat = "drama" then 18
  else if cat = "horror" then 27
  else if cat = "romance" then 10749
  else if cat = "thriller" then 53
  else if cat = "scifi" then 878
  else if cat = "animation" then 16
  else 0

/-- Endpoint selection of `fetchByCategory` (App.js lines 375-421).  In
TV mode an absent `tvCatMap` key leaves `tvCat === undefined`, which the
final branch interpolates into the URL as the literal string
`"undefined"`. -/
def selectEndpoint (tv : Bool) (cat : String) : Endpoint :=
  if tv then
    match tvCatLookup cat with
    | .genre n => .discoverGenre true n
    | .list s =>
      if s = "tagalog_tv" then .discoverLanguage true "tl" none
      else .canonicalList true s
    | .absent => .canonicalList true "undefined"
  else
    if cat = "filipino" then .discoverLanguage false "tl" (some "PH")
    else if movieGenreCats.contains cat then .discoverGenre false (movieGenreId cat)
    else .canonicalList false cat

/-! ## Search controller: timers, requests and visible state

A timer is an entry `(id, action)` of the `armed` list; `setTimeout`
appends a fresh id, `clearTimeout id` removes the entry.  Firing a timer
removes it and runs its action; the network call is modelled as resolving
immediately, recording the query in the request log and in the field that
tracks which query the visible suggestion list / result list came from. -/

/-- What a pending timer will do: `fetchSearchSuggestions(value)` or
`performSearch(value)`. -/
inductive TimerAction
  | suggest (query : String)
  | fullSearch (query : String)
deriving DecidableEq, Repr

/-- `clearTimeout(id)` on the armed-timer list (a `none` handle is a
no-op, matching `if (ref.current) clearTimeout(ref.current)`). -/
def disarm (armed : List (Nat × TimerAction)) (idOpt : Option Nat) :
    List (Nat × TimerAction) :=
  match idOpt with
  | none => armed
  | some i => armed.filter (fun p => p.1 ≠ i)

/-- Search-session state of the App variant.  `tracked` is
`typingTimeoutRef.current`; `suggArrived` / `resultsArrived` record which
query produced the suggestion list / result list currently held in state
(`none` = cleared); `suggReqs` / `searchReqs` log the queries of network
requests actually issued; `browseFetches` counts the category refetches
that restore the browse view. -/
structure SearchStApp where
  nextId : Nat
  armed : List (Nat × TimerAction)
  tracked : Option Nat
  suggArrived : Option String
  resultsArrived : Option String
  isSearching : Bool
  suggReqs : List String
  searchReqs : List String
  browseFetches : Nat
deriving DecidableEq, Repr

/-- The session before any keystroke. -/
def initSearchApp : SearchStApp :=
  ⟨0, [], none, none, none, false, [], [], 0⟩

/-- `handleSearchChange` of the App variant (App.js lines 539-566):
clear the tracked timer; on an empty-trimming value clear results and
suggestions and refetch the category; on a trimmed length of at least 2
arm the 300ms suggestion timer and then the 500ms full-search timer,
writing BOTH handles into the same `typingTimeoutRef`; otherwise do
nothing further. -/
def handleSearchChangeApp (st : SearchStApp) (value : String) : SearchStApp :=
  let st1 := { st with armed := disarm st.armed st.tracked }
  if jsTrim value = "" then
    { st1 with
      suggArrived := none
      resultsArrived := none
      isSearching := false
      browseFetches := st1.browseFetches + 1 }
  else if 2 ≤ (jsTrim value).length then
    let st2 := { st1 with
      isSearching := true
      armed := st1.armed ++ [(st1.nextId, TimerAction.suggest value)]
      tracked := some st1.nextId
      nextId := st1.nextId + 1 }
    { st2 with
      armed := st2.armed ++ [(st2.nextId, TimerAction.fullSearch value)]
      tracked := some st2.nextId
      nextId := st2.nextId + 1 }
  else st1

/-- Firing the timer with identifier `id` in the App variant: a suggestion
timer runs `fetchSearchSuggestions` (App.js lines 478-495: short queries
clear the suggestion list without a network call, otherwise the search
request is issued and its results stored); a full-search timer runs
`performSearch` (App.js lines 497-536: an empty query restores the browse
view, otherwise the search request is issued, results stored, suggestions
cleared and `isSearching` reset).  A timer that is not armed does
nothing. -/
def fireTimerApp (st : SearchStApp) (id : Nat) : SearchStApp :=
  match st.armed.find? (fun p => p.1 = id) with
  | none => st
  | some pr =>
    let st1 := { st with armed := st.armed.filter (fun p => p.1 ≠ id) }
    match pr.2 with
    | TimerAction.suggest q =>
      if (jsTrim q).length < 2 then { st1 with suggArrived := none }
      else { st1 with suggReqs := st1.suggReqs ++ [q], suggArrived := some q }
    | TimerAction.fullSearch q =>
      if jsTrim q = "" then
        { st1 with
          resultsArrived := none
          suggArrived := none
          isSearching := false
          browseFetches := st1.browseFetches + 1 }
      else
        { st1 with
          searchReqs := st1.searchReqs ++ [q]
          resultsArrived := some q
          suggArrived := none
          isSearching := false }

/-- Let every timer still armed fire, in arming order (timer ids increase
with arming time, and the pending delays are ordered the same way in the
claimed scenarios). -/
def fireAllApp (st : SearchStApp) : SearchStApp :=
  (st.armed.map (fun p => p.1)).foldl fireTimerApp st

/-- Search-session state of the V1 variant: `typingRef` is
`typingTimeoutRef.current` (the suggestion timer), `debounceId` is the
timeout id captured inside the `createDebounce` closure (the full-search
timer); the remaining fields are as in `SearchStApp`. -/
structure SearchStV1 where
  nextId : Nat
  armed : List (Nat × TimerAction)
  typingRef : Option Nat
  debounceId : Option Nat
  suggArrived : Option String
  resultsArrived : Option String
  isSearching : Bool
  suggReqs : List String
  searchReqs : List String
  browseFetches : Nat
deriving DecidableEq, Repr

/-- The session before any keystroke. -/
def initSearchV1 : SearchStV1 :=
  ⟨0, [], none, none, none, none, false, [], [], 0⟩

/-- `handleSearchChange` of the V1 variant (`part_000` lines 1095-1124):
clear and null the typing (suggestion) timer; an empty-trimming value
runs `handleClearSearch` (`part_000` lines 1017-1041: clear suggestions,
results and the typing timer, refetch the category); a trimmed length of
at least 2 arms the suggestion timer into `typingTimeoutRef` and passes
the full search through `debounceRef.current` (`createDebounce`,
`part_000` lines 37-49: clear the previous debounce timeout, arm a new
one); otherwise clear suggestions and results without any network
call. -/
def handleSearchChangeV1 (st : SearchStV1) (value : String) : SearchStV1 :=
  let st1 := { st with armed := disarm st.armed st.typingRef, typingRef := none }
  if jsTrim value = "" then
    { st1 with
      suggArrived := none
      resultsArrived := none
      isSearching := false
      browseFetches := st1.browseFetches + 1 }
  else if 2 ≤ (jsTrim value).length then
    let st2 := { st1 with
      isSearching := true
      armed := st1.armed ++ [(st1.nextId, TimerAction.suggest value)]
      typingRef := some st1.nextId
      nextId := st1.nextId + 1 }
    let st3 := { st2 with armed := disarm st2.armed st2.debounceId }
    { st3 with
      armed := st3.armed ++ [(st3.nextId, TimerAction.fullSearch value)]
      debounceId := some st3.nextId
      nextId := st3.nextId + 1 }
  else
    { st1 with suggArrived := none, resultsArrived := none, isSearching := false }

/-- Firing the timer with identifier `id` in the V1 variant
(`fetchSearchSuggestions`, `part_000` lines 991-1014, and
`performSearch`, `part_000` lines 1044-1093; same observable shape as the
App variant). -/
def fireTimerV1 (st : SearchStV1) (id : Nat) : SearchStV1 :=
  match st.armed.find? (fun p => p.1 = id) with
  | none => st
  | some pr =>
    let st1 := { st with armed := st.armed.filter (fun p => p.1 ≠ id) }
    match pr.2 with
    | TimerAction.suggest q =>
      if (jsTrim q).length < 2 then { st1 with suggArrived := none }
      else { st1 with suggReqs := st1.suggReqs ++ [q], suggArrived := some q }
    | TimerAction.fullSearch q =>
      if jsTrim q = "" then
        { st1 with
          resultsArrived := none
          suggArrived := none
          isSearching := false
          browseFetches := st1.browseFetches + 1 }
      else
        { st1 with
          searchReqs := st1.searchReqs ++ [q]
          resultsArrived := some q
          suggArrived := none
          isSearching := false }

/-- Let every timer still armed fire, in arming order. -/
def fireAllV1 (st : SearchStV1) : SearchStV1 :=
  (st.armed.map (fun p => p.1)).foldl fireTimerV1 st

/-- Feed a list of keystroke values to the App variant handler. -/
def typeAllApp (st : SearchStApp) (values : List String) : SearchStApp :=
  values.foldl handleSearchChangeApp st

/-- Feed a list of keystroke values to the V1 variant handler. -/
def typeAllV1 (st : SearchStV1) (values : List String) : SearchStV1 :=
  values.foldl handleSearchChangeV1 st

/-! ## Helper lemmas -/

/-- Clearing a timeout never adds timers. -/
theorem disarm_sublist (armed : List (Nat × TimerAction)) (idOpt : Option Nat) :
    (disarm armed idOpt).Sublist armed := by
  cases idOpt with
  | none => exact List.Sublist.refl armed
  | some i => exact List.filter_sublist armed

/-- A disconnected lazy-image watch ignores every delivered entry. -/
theorem imageObserverRun_disconnected (evs : List Bool) (ob : Observer)
    (h : ob.connected = false) : imageObserverRun ob evs = ob := by
  induction evs generalizing ob with
  | nil => rfl
  | cons e es ih =>
    have hstep : imageObserverStep ob e = ob := by
      unfold imageObserverStep
      rw [h]
      simp
    have hrun : imageObserverRun ob (e :: es) = imageObserverRun (imageObserverStep ob e) es := rfl
    rw [hrun, hstep]
    exact ih ob h

/-- Closed form of a fresh lazy-image watch over any event sequence: it
ends in `⟨false, 1⟩` as soon as one intersecting entry is delivered, and
stays untouched otherwise. -/
theorem imageObserverRun_init (evs : List Bool) :
    imageObserverRun Observer.init evs
      = if true ∈ evs then ⟨false, 1⟩ else Observer.init := by
  induction evs with
  | nil => rfl
  | cons e es ih =>
    cases e with
    | true =>
      have hrun : imageObserverRun Observer.init (true :: es)
          = imageObserverRun ⟨false, 1⟩ es := rfl
      rw [hrun, imageObserverRun_disconnected es ⟨false, 1⟩ rfl]
      simp
    | false =>
      have hrun : imageObserverRun Observer.init (false :: es)
          = imageObserverRun Observer.init es := rfl
      rw [hrun, ih]
      simp

/-! ## C1: the page merge deduplicates by identifier -/

/-- C1 counterexample: the claim states that after merging a newly fetched
page each identifier occurs exactly once in the accumulator; the merge of
the App variant is plain concatenation, so merging page [B, C] into
accumulator [A, B] leaves identifier 2 twice. -/
theorem C1_merge_counterexample :
    (ids (mergeConcat [itemA, itemB] [itemB, itemC])).count 2 = 2
    ∧ ¬ (ids (mergeConcat [itemA, itemB] [itemB, itemC])).Nodup := by
  decide

/-- C1 amended: the merge of the V1 variant deduplicates by identifier,
keeping the first-seen copy: if the accumulator and the fetched page each
carry distinct identifiers, then after the merge every identifier of
either side occurs exactly once, and every merged item whose identifier
was already present is the previously accumulated copy.  The App variant
merge concatenates without dedup. -/
theorem C1_mergeDedupe_unique_ids (prev newItems : List MediaItem)
    (hprev : (ids prev).Nodup) (hnew : (ids newItems).Nodup) :
    (ids (mergeDedupe prev newItems)).Nodup
    ∧ (∀ a : Nat, a ∈ ids prev ∨ a ∈ ids newItems →
        (ids (mergeDedupe prev newItems)).count a = 1)
    ∧ ∀ m ∈ mergeDedupe prev newItems, m.id ∈ ids prev → m ∈ prev := by
  have hids : ids (mergeDedupe prev newItems)
      = ids prev ++ ids (newItems.filter
          (fun item => !((prev.map MediaItem.id).contains item.id))) := by
    simp [ids, mergeDedupe]
  have hfe : ∀ m ∈ newItems.filter
      (fun item => !((prev.map MediaItem.id).contains item.id)), m.id ∉ ids prev := by
    intro m hm hmem
    have h2 := (List.mem_filter.mp hm).2
    simp only [List.contains, Bool.not_eq_true', List.elem_eq_mem,
      decide_eq_false_iff_not] at h2
    exact h2 hmem
  have hnodup_filter : (ids (newItems.filter
      (fun item => !((prev.map MediaItem.id).contains item.id)))).Nodup := by
    have hsub : ids (newItems.filter
        (fun item => !((prev.map MediaItem.id).contains item.id))) |>.Sublist (ids newItems) :=
      List.Sublist.map MediaItem.id (List.filter_sublist newItems)
    exact List.Nodup.sublist hsub hnew
  have hdisj : List.Disjoint (ids prev) (ids (newItems.filter
      (fun item => !((prev.map MediaItem.id).contains item.id)))) := by
    intro a ha hb
    obtain ⟨m, hm, rfl⟩ := List.mem_map.mp hb
    exact hfe m hm ha
  have hnodup : (ids (mergeDedupe prev newItems)).Nodup := by
    rw [hids]
    exact List.Nodup.append hprev hnodup_filter hdisj
  refine ⟨hnodup, ?_, ?_⟩
  · intro a ha
    refine List.count_eq_one_of_mem hnodup ?_
    rw [hids]
    rcases ha with ha | ha
    · exact List.mem_append_left _ ha
    · by_cases hin : a ∈ ids prev
      · exact List.mem_append_left _ hin
      · refine List.mem_append_right _ ?_
        obtain ⟨m, hm, rfl⟩ := List.mem_map.mp ha
        refine List.mem_map.mpr ⟨m, ?_, rfl⟩
        refine List.mem_filter.mpr ⟨hm, ?_⟩
        simp only [List.contains, Bool.not_eq_true', List.elem_eq_mem,
          decide_eq_false_iff_not]
        exact hin
  · intro m hm hid
    rcases List.mem_append.mp hm with h | h
    · exact h
    · exact absurd hid (hfe m h)

/-- Witness for C1: merging page [B, C] into accumulator [A, B] with the
V1 merge yields [A, B, C]; identifier 2 occurs exactly once. -/
theorem C1_mergeDedupe_unique_ids_witness :
    (ids (mergeDedupe [itemA, itemB] [itemB, itemC])).count 2 = 1
    ∧ mergeDedupe [itemA, itemB] [itemB, itemC] = [itemA, itemB, itemC] :=
  ⟨(C1_mergeDedupe_unique_ids [itemA, itemB] [itemB, itemC] (by decide) (by decide)).2.1 2
      (Or.inr (by decide)),
   by decide⟩

/-! ## C2: debounce collapses a burst of keystrokes into one request -/

/-- C2 counterexample: typing "b", "ba", "bat" with every keystroke inside
the debounce window issues TWO suggestion requests in the App variant (one
for the stale query "ba"), because the suggestion timer handle is
overwritten by the full-search timer handle and the next keystroke only
clears the latter. -/
theorem C2_debounce_counterexample :
    (fireAllApp (typeAllApp initSearchApp ["b", "ba", "bat"])).suggReqs = ["ba", "bat"]
    ∧ (fireAllApp (typeAllApp initSearchApp ["b", "ba", "bat"])).suggReqs.length ≠ 1
    ∧ (fireAllApp (typeAllApp initSearchApp ["b", "ba", "bat"])).searchReqs = ["bat"] := by
  decide

/-- C2 amended: in the V1 variant, which tracks the suggestion timer in
`typingTimeoutRef` and the full-search timer inside the debounce closure,
typing "b", "ba", "bat" within the debounce window issues exactly one
suggestion request and exactly one full-search request, both for "bat". -/
theorem C2_debounce_single_request_v1 :
    (fireAllV1 (typeAllV1 initSearchV1 ["b", "ba", "bat"])).suggReqs = ["bat"]
    ∧ (fireAllV1 (typeAllV1 initSearchV1 ["b", "ba", "bat"])).searchReqs = ["bat"] := by
  decide

/-! ## C3: the load-more guard -/

/-- C3 counterexample: in the V1 variant a load-more fetch does not set
the loading flag, so a second invocation issued while the first request
is still pending passes the `loading || !hasMore` guard and puts a second
request in flight; in the App variant the handler has no guard at all and
fetches even while `loading` is set. -/
theorem C3_loadMore_counterexample :
    (handleLoadMoreV1 (handleLoadMoreV1 ⟨false, true, 0⟩)).inFlight = 2
    ∧ handleLoadMoreApp ⟨true, true, 1⟩ = ⟨true, true, 2⟩ := by
  decide

/-- C3 amended: in the V1 variant an invocation made while the loading
flag is set (a first-page fetch is pending) or while hasMore is false is
a no-op. -/
theorem C3_loadMore_guard (st : PageSt)
    (h : st.loading = true ∨ st.hasMore = false) :
    handleLoadMoreV1 st = st := by
  unfold handleLoadMoreV1
  rcases h with h | h <;> simp [h]

/-- Witness for C3: the guard is a no-op both while loading and when
hasMore is exhausted. -/
theorem C3_loadMore_guard_witness :
    handleLoadMoreV1 ⟨true, true, 1⟩ = ⟨true, true, 1⟩
    ∧ handleLoadMoreV1 ⟨false, false, 0⟩ = ⟨false, false, 0⟩ :=
  ⟨C3_loadMore_guard ⟨true, true, 1⟩ (Or.inl rfl),
   C3_loadMore_guard ⟨false, false, 0⟩ (Or.inr rfl)⟩

/-! ## C4: fetch failures keep the accumulator -/

/-- C4 counterexample: the claim states that EVERY failing page fetch
leaves the accumulated list unchanged, but the V1 failure handler clears
the list (and the featured item) whenever the failing fetch was for page
1, even though items were accumulated. -/
theorem C4_failure_counterexample :
    (fetchFailureV1 ⟨[itemA, itemB, itemC], some itemA, 1, true, true, none⟩ 1 true
        (statusErrorMessageV1 429)).movies = []
    ∧ ([itemA, itemB, itemC] : List MediaItem) ≠ [] := by
  decide

/-- C4 amended: a failing fetch of any page other than page 1 leaves the
accumulated list and the featured item unchanged and surfaces the thrown
message (the 429 message being the rate-limit text); the App variant
failure handler keeps the accumulator for every page and surfaces
`Failed to load content`.  Both handlers are total functions: no
exception escapes. -/
theorem C4_failure_preserves_accumulator (st : AppState) (pageNum : Nat)
    (shouldReset : Bool) (msg : String) (h2 : pageNum ≠ 1) (hmsg : msg ≠ "") :
    (fetchFailureV1 st pageNum shouldReset msg).movies = st.movies
    ∧ (fetchFailureV1 st pageNum shouldReset msg).featured = st.featured
    ∧ (fetchFailureV1 st pageNum shouldReset msg).error = some msg
    ∧ statusErrorMessageV1 429 = "API rate limit exceeded. Please try again later."
    ∧ (fetchFailureApp st).movies = st.movies
    ∧ (fetchFailureApp st).featured = st.featured
    ∧ (fetchFailureApp st).error = some "Failed to load content" := by
  unfold fetchFailureV1 fetchFailureApp
  refine ⟨?_, ?_, ?_, by decide, rfl, rfl, rfl⟩ <;> simp [h2, hmsg]

/-- Witness for C4: a 429 on the page-3 fetch keeps the accumulator
[A, B, C] and surfaces the rate-limit message. -/
theorem C4_failure_preserves_accumulator_witness :
    (fetchFailureV1 ⟨[itemA, itemB, itemC], some itemA, 2, true, false, none⟩ 3 false
        (statusErrorMessageV1 429)).movies = [itemA, itemB, itemC]
    ∧ (fetchFailureV1 ⟨[itemA, itemB, itemC], some itemA, 2, true, false, none⟩ 3 false
        (statusErrorMessageV1 429)).error
      = some "API rate limit exceeded. Please try again later." := by
  have h := C4_failure_preserves_accumulator
    ⟨[itemA, itemB, itemC], some itemA, 2, true, false, none⟩ 3 false
    (statusErrorMessageV1 429) (by decide) (by decide)
  refine ⟨h.1, ?_⟩
  rw [h.2.2.1, h.2.2.2.1]

/-! ## C5: first-page success scenario -/

/-- C5: a successful first-page fetch with results [A, B] and 5 total
pages yields accumulator [A, B], featured item A, page 1 and
hasMore = true; in general a successful fetch of page N sets
hasMore = (N < total pages) and page = N. -/
theorem C5_first_page_success (st : AppState) (pageNum : Nat) (data : FetchData) :
    (fetchTrendingSuccess st 1 ⟨[itemA, itemB], 5, 100⟩).movies = [itemA, itemB]
    ∧ (fetchTrendingSuccess st 1 ⟨[itemA, itemB], 5, 100⟩).featured = some itemA
    ∧ (fetchTrendingSuccess st 1 ⟨[itemA, itemB], 5, 100⟩).page = 1
    ∧ (fetchTrendingSuccess st 1 ⟨[itemA, itemB], 5, 100⟩).hasMore = true
    ∧ (fetchTrendingSuccess st pageNum data).hasMore = decide (pageNum < data.total_pages)
    ∧ (fetchTrendingSuccess st pageNum data).page = pageNum :=
  ⟨rfl, rfl, rfl, rfl, rfl, rfl⟩

/-! ## C6: clearing the query to empty -/

/-- C6 counterexample: after typing "ba" and clearing the input, the
suggestion timer armed for "ba" is still pending (only the tracked
full-search timer was cancelled), and when it fires the suggestion
request for the old query is issued and its response lands in the
suggestion state. -/
theorem C6_clear_counterexample :
    (typeAllApp initSearchApp ["ba", ""]).armed = [(0, TimerAction.suggest "ba")]
    ∧ (fireAllApp (typeAllApp initSearchApp ["ba", ""])).suggReqs = ["ba"]
    ∧ (fireAllApp (typeAllApp initSearchApp ["ba", ""])).suggArrived = some "ba" := by
  decide

/-- C6 amended: clearing the query to an empty-trimming value immediately
(not debounced) cancels the tracked timer, clears the suggestion list and
the search results, resets the searching flag and refetches the current
category; a pending suggestion timer whose handle was overwritten is NOT
cancelled and may still issue a request for the old query. -/
theorem C6_clear_to_empty (st : SearchStApp) (value : String)
    (h : jsTrim value = "") :
    (handleSearchChangeApp st value).suggArrived = none
    ∧ (handleSearchChangeApp st value).resultsArrived = none
    ∧ (handleSearchChangeApp st value).isSearching = false
    ∧ (handleSearchChangeApp st value).browseFetches = st.browseFetches + 1
    ∧ (handleSearchChangeApp st value).armed = disarm st.armed st.tracked
    ∧ (handleSearchChangeApp st value).suggReqs = st.suggReqs
    ∧ (handleSearchChangeApp st value).searchReqs = st.searchReqs := by
  unfold handleSearchChangeApp
  simp [h]

/-- Witness for C6: clearing after typing "ba" empties the visible search
state and refetches the category once. -/
theorem C6_clear_to_empty_witness :
    (handleSearchChangeApp (typeAllApp initSearchApp ["ba"]) "").resultsArrived = none
    ∧ (handleSearchChangeApp (typeAllApp initSearchApp ["ba"]) "").browseFetches = 1 := by
  have h := C6_clear_to_empty (typeAllApp initSearchApp ["ba"]) "" (by decide)
  refine ⟨h.2.1, ?_⟩
  rw [h.2.2.2.1]
  decide

/-! ## C7: queries shorter than two characters -/

/-- C7 counterexample: in the App variant a keystroke whose value trims to
a single character leaves the previously displayed search results in
place - the claim says they are cleared. -/
theorem C7_short_query_counterexample :
    (handleSearchChangeApp (fireAllApp (typeAllApp initSearchApp ["xy"])) "b").resultsArrived
      = some "xy"
    ∧ some "xy" ≠ (none : Option String) := by
  decide

/-- C7 amended: in the V1 variant a non-empty value whose trimmed length
is below 2 clears the suggestion list and search results, resets the
searching flag, issues no network request and arms no new timer. -/
theorem C7_short_query_clears_v1 (st : SearchStV1) (value : String)
    (h1 : jsTrim value ≠ "") (h2 : (jsTrim value).length < 2) :
    (handleSearchChangeV1 st value).suggArrived = none
    ∧ (handleSearchChangeV1 st value).resultsArrived = none
    ∧ (handleSearchChangeV1 st value).isSearching = false
    ∧ (handleSearchChangeV1 st value).suggReqs = st.suggReqs
    ∧ (handleSearchChangeV1 st value).searchReqs = st.searchReqs
    ∧ (handleSearchChangeV1 st value).armed.Sublist st.armed := by
  have h3 : ¬ (2 ≤ (jsTrim value).length) := Nat.not_le.mpr h2
  refine ⟨?_, ?_, ?_, ?_, ?_, ?_⟩ <;>
    simp [handleSearchChangeV1, h1, h3, disarm_sublist]

/-- Witness for C7: the single character "b" clears the state and issues
nothing. -/
theorem C7_short_query_clears_v1_witness :
    (handleSearchChangeV1 initSearchV1 "b").suggArrived = none
    ∧ (handleSearchChangeV1 initSearchV1 "b").searchReqs = [] :=
  ⟨(C7_short_query_clears_v1 initSearchV1 "b" (by decide) (by decide)).1,
   (C7_short_query_clears_v1 initSearchV1 "b" (by decide) (by decide)).2.2.2.2.1⟩

/-! ## C8: single-shot visibility watches -/

/-- C8 counterexample: the infinite-scroll observer callback in App.js
does not disconnect itself, so a watch that receives two intersecting
entries runs its callback twice. -/
theorem C8_scroll_watch_counterexample :
    (scrollObserverRun Observer.init [true, true]).fired = 2 := by
  decide

/-- C8 amended: the lazy-image watch is single-shot: over any sequence of
delivered entries the callback runs at most once, it runs exactly once
precisely when some intersecting entry is delivered, and after that the
watch has disconnected itself.  The infinite-scroll watch in App.js does
not self-cancel and relies on the enclosing effect to disconnect it. -/
theorem C8_image_watch_fires_once (events : List Bool) :
    (imageObserverRun Observer.init events).fired ≤ 1
    ∧ ((imageObserverRun Observer.init events).fired = 1 ↔ true ∈ events)
    ∧ (true ∈ events → (imageObserverRun Observer.init events).connected = false) := by
  rw [imageObserverRun_init]
  by_cases h : true ∈ events <;> simp [h, Observer.init]

/-- Witness for C8: a watch that sees a non-intersecting entry and then an
intersecting one fires exactly once. -/
theorem C8_image_watch_fires_once_witness :
    (imageObserverRun Observer.init [false, true]).fired = 1 :=
  (C8_image_watch_fires_once [false, true]).2.1.mpr (by decide)

/-! ## C9: endpoint selection -/

/-- C9 counterexample: the claim states that an unknown category is mapped
to the canonical-list endpoint using the category string itself as the
list name, but in TV mode the URL interpolates the undefined map lookup,
producing the literal list name "undefined". -/
theorem C9_endpoint_counterexample :
    selectEndpoint true "upcoming" = Endpoint.canonicalList true "undefined"
    ∧ selectEndpoint true "upcoming" ≠ Endpoint.canonicalList true "upcoming" := by
  decide

/-- C9 amended: in movie mode an unknown category maps to the
canonical-list endpoint named by the category string itself; known movie
genres map to discover-by-genre, and the language/region categories map
to discover with a language filter; in TV mode an unknown category maps
to the canonical-list endpoint with the literal name "undefined". -/
theorem C9_endpoint_mapping (cat gcat : String)
    (hnf : cat ≠ "filipino") (hng : movieGenreCats.contains cat = false)
    (hu : tvCatLookup cat = TvCatVal.absent)
    (hg : movieGenreCats.contains gcat = true) :
    selectEndpoint false cat = Endpoint.canonicalList false cat
    ∧ selectEndpoint true cat = Endpoint.canonicalList true "undefined"
    ∧ selectEndpoint false "filipino" = Endpoint.discoverLanguage false "tl" (some "PH")
    ∧ selectEndpoint false gcat = Endpoint.discoverGenre false (movieGenreId gcat)
    ∧ selectEndpoint true "tagalog_tv" = Endpoint.discoverLanguage true "tl" none := by
  have hgf : gcat ≠ "filipino" := by
    rintro rfl
    rw [show movieGenreCats.contains "filipino" = false from by decide] at hg
    exact Bool.false_ne_true hg
  simp only [List.contains, List.elem_eq_mem, decide_eq_false_iff_not] at hng
  simp only [List.contains, List.elem_eq_mem, decide_eq_true_eq] at hg
  refine ⟨?_, ?_, by decide, ?_, by decide⟩
  · simp [selectEndpoint, hnf, hng]
  · simp [selectEndpoint, hu]
  · simp [selectEndpoint, hgf, hg]

/-- Witness for C9: the category "upcoming" is unknown to both modes; in
movie mode the list keeps its name, in TV mode it degenerates to
"undefined"; the known genre "horror" discovers genre 27. -/
theorem C9_endpoint_mapping_witness :
    selectEndpoint false "upcoming" = Endpoint.canonicalList false "upcoming"
    ∧ selectEndpoint true "upcoming" = Endpoint.canonicalList true "undefined"
    ∧ selectEndpoint false "horror" = Endpoint.discoverGenre false 27 := by
  have h := C9_endpoint_mapping "upcoming" "horror" (by decide) (by decide)
    (by decide) (by decide)
  refine ⟨h.1, h.2.1, ?_⟩
  rw [h.2.2.2.1]
  decide

/-! ## C10: the image URL builder -/

/-- C10 counterexample: the claim says every accepted path appears in the
result with exactly one leading slash, but a path that already starts
with two slashes is used verbatim, so the path portion after the width
token keeps both slashes. -/
theorem C10_getImageUrl_counterexample :
    getImageUrl (JSVal.string "//a") "card"
      = some (TMDB_IMAGE_BASE ++ "w342" ++ "//a")
    ∧ hasExactlyOneLeadingSlash "//a" = false := by
  constructor
  · decide
  · decide

/-- C10 amended: `getImageUrl` is total; missing, non-string,
whitespace-only and literal `'null'` inputs give `null`; every other
string is appended to the base URL and width token with a leading slash
added when absent (an existing prefix of slashes is kept verbatim); an
unrecognized size name falls back to the card width `w342`. -/
theorem C10_getImageUrl_total_behavior (s size : String) (v : JSVal)
    (hs : jsTrim s ≠ "") (hn : s ≠ "null") (hv : v.isString = false) :
    getImageUrl v size = none
    ∧ getImageUrl (JSVal.string "") size = none
    ∧ (∀ t : String, jsTrim t = "" → getImageUrl (JSVal.string t) size = none)
    ∧ getImageUrl (JSVal.string "null") size = none
    ∧ getImageUrl (JSVal.string s) size
        = some (TMDB_IMAGE_BASE ++ (imageSizes size).getD "w342"
            ++ (if jsStartsWith s "/" then s else "/" ++ s))
    ∧ (imageSizes "poster" = none ∧ (imageSizes "poster").getD "w342" = "w342") := by
  refine ⟨?_, ?_, ?_, ?_, ?_, ?_, ?_⟩
  · unfold getImageUrl
    cases v with
    | undefined => rfl
    | jsnull => rfl
    | boolean b => cases b <;> rfl
    | number n => simp [JSVal.truthy, JSVal.isString]
    | string t => simp [JSVal.isString] at hv
  · rfl
  · intro t ht
    unfold getImageUrl
    by_cases htriv : t = ""
    · subst htriv; rfl
    · simp [JSVal.truthy, JSVal.isString, htriv, ht]
  · simp [getImageUrl, JSVal.truthy, JSVal.isString]
  · have hne : s ≠ "" := by
      intro h
      subst h
      exact hs rfl
    unfold getImageUrl
    simp [JSVal.truthy, JSVal.isString, hne, hs, hn]
  · rfl
  · rfl

/-- Witness for C10: the hypotheses of the amended theorem hold at the
concrete input path `poster1.jpg` with an unrecognized size. -/
theorem C10_getImageUrl_total_behavior_witness :
    getImageUrl (JSVal.string "poster1.jpg") "poster"
      = some "https://image.tmdb.org/t/p/w342/poster1.jpg" := by
  have h := C10_getImageUrl_total_behavior "poster1.jpg" "poster" JSVal.undefined
    (by decide) (by decide) (by rfl)
  have h5 := h.2.2.2.2.1
  rw [h5]
  decide

end Movie
